import Mathlib

/-!
Shallow embedding of the gift-recommendation interview controller and its
generation client from src/index.tsx.

The network is modelled as an oracle mapping each attempt number to its
outcome; JSON.parse is modelled as an abstract parse function returning the
parsed step on success and none when the body is not valid JSON. Parsed
steps keep every field optional, mirroring the unchecked TypeScript cast
`JSON.parse(jsonText) as StepResponse` which performs no runtime validation.
-/

namespace Gifty

/-- Role of a transcript turn (field role of interface HistoryItem). -/
inductive Role where
  | model
  | user
deriving DecidableEq, Repr

/-- One transcript turn (interface HistoryItem). -/
structure HistoryItem where
  role : Role
  text : String
deriving DecidableEq, Repr

/-- Result of JSON.parse on a response body, cast to StepResponse without
runtime validation: every field may be absent. -/
structure ParsedStep where
  question : Option String
  options : Option (List String)
  isFinal : Option Bool
  recommendations : Option (List String)
deriving DecidableEq, Repr

/-- The status and code fields that the retry condition and the error
classifier in fetchNextStep read off a thrown backend error. -/
structure GenError where
  status : Option Nat
  code : Option Nat
deriving DecidableEq, Repr

/-- Outcome of one attempt of ai.models.generateContent: a response whose
text field may be absent or empty, or a thrown error. -/
inductive AttemptResult where
  | success (text : Option String)
  | failure (e : GenError)

/-- The retry condition of generateContentWithRetry, line 90:
error.status === 429 or error.code === 429 or error.status === 503. -/
def retryableError (e : GenError) : Bool :=
  e.status == some 429 || e.code == some 429 || e.status == some 503

/-- generateContentWithRetry (src/index.tsx lines 74-97), with the network
modelled as an oracle giving the outcome of each attempt. Arguments after
the oracle are, in order: retries, the index of the current attempt, and
backoff. Returns the final outcome together with the list of backoff delays
waited before each retry, in order. With retries = 0 a failure propagates
immediately because the source condition requires retries > 0. -/
def generateContentWithRetry (oracle : Nat → AttemptResult) :
    Nat → Nat → Nat → Except GenError (Option String) × List Nat
  | 0, attempt, _ =>
    match oracle attempt with
    | .success t => (Except.ok t, [])
    | .failure e => (Except.error e, [])
  | retries + 1, attempt, backoff =>
    match oracle attempt with
    | .success t => (Except.ok t, [])
    | .failure e =>
      if retryableError e then
        let rest := generateContentWithRetry oracle retries (attempt + 1) (backoff * 2)
        (rest.1, backoff :: rest.2)
      else (Except.error e, [])

/-- The five values of the appState React state. -/
inductive AppState where
  | intro
  | loading
  | question
  | results
  | error
deriving DecidableEq, Repr

/-- The arguments a call of fetchNextStep is issued with: the transcript
snapshot and the initial prompt (empty for follow-up turns). The stored
lastAction closure captures exactly these. -/
structure RequestSpec where
  history : List HistoryItem
  initialPrompt : String
deriving DecidableEq, Repr

/-- The controller-relevant React state of the App component: appState,
history, data, themeIndex, customInput, errorMsg and lastAction. The
lastAction closure is represented by the RequestSpec it captured, none for
the initial no-op closure. -/
structure AppModel where
  appState : AppState
  history : List HistoryItem
  data : Option ParsedStep
  themeIndex : Nat
  customInput : String
  errorMsg : String
  lastAction : Option RequestSpec
deriving DecidableEq, Repr

/-- The initial state of the component (useState initializers). -/
def initialModel : AppModel :=
  { appState := .intro, history := [], data := none, themeIndex := 0,
    customInput := "", errorMsg := "", lastAction := none }

/-- The bootstrap prompt built in handleStart, line 238. -/
def startPrompt : String := "Start the session. Ask \x27Who are you buying this gift for?\x27."

/-- The rate-limit error message of fetchNextStep, line 333. -/
def rateLimitMessage : String :=
  "We\x27re receiving too many requests right now. Please wait a moment and try again."

/-- The generic error message of fetchNextStep, line 331. -/
def genericMessage : String :=
  "Something went wrong. Please check your connection and try again."

/-- The error classification in the catch block of fetchNextStep, lines
331-334: a 429 status or code selects the rate-limit message, anything else
the generic message. -/
def errorMessageFor (e : GenError) : String :=
  if e.status == some 429 || e.code == some 429 then rateLimitMessage else genericMessage

/-- JavaScript truthiness of the response text at line 320: an absent or
empty string is falsy. -/
def textTruthy : Option String → Bool
  | none => false
  | some s => !(s == "")

/-- The expression data?.question || \x27\x27 at line 257: the current
question text, empty when data is null or the field is absent. -/
def questionOrEmpty (d : Option ParsedStep) : String :=
  match d with
  | none => ""
  | some p =>
    match p.question with
    | none => ""
    | some q => q

/-- questionCount in fetchNextStep, line 271: the number of model-authored
turns in the transcript passed to the request. -/
def modelTurnCount (h : List HistoryItem) : Nat :=
  (h.filter fun t => t.role == Role.model).length

/-- The Current Question Index embedded in the system instruction, line 279:
questionCount + 1. -/
def promptQuestionIndex (h : List HistoryItem) : Nat :=
  modelTurnCount h + 1

/-- The option list the spec calls currentOptions: the options field of the
stored step data, empty when data is null or the field is absent. -/
def currentOptions (s : AppModel) : List String :=
  match s.data with
  | none => []
  | some p => p.options.getD []

/-- handleStart, lines 234-243: set loading, build the bootstrap request
over the empty transcript, store it as lastAction and issue it. -/
def handleStart (s : AppModel) : AppModel × RequestSpec :=
  let req : RequestSpec := { history := [], initialPrompt := startPrompt }
  ({ s with appState := .loading, lastAction := some req }, req)

/-- handleReset, lines 245-252: clear history, data, customInput, errorMsg,
return to intro and theme 0. The lastAction state is not touched. -/
def handleReset (s : AppModel) : AppModel :=
  { appState := .intro, history := [], data := none, themeIndex := 0,
    customInput := "", errorMsg := "", lastAction := s.lastAction }

/-- handleAnswer, lines 254-267: append the model question turn and the user
answer turn, set loading, clear customInput, store and issue the follow-up
request over the new transcript. -/
def handleAnswer (s : AppModel) (answer : String) : AppModel × RequestSpec :=
  let newHistory : List HistoryItem :=
    s.history ++ [⟨Role.model, questionOrEmpty s.data⟩, ⟨Role.user, answer⟩]
  let req : RequestSpec := { history := newHistory, initialPrompt := "" }
  ({ s with history := newHistory, appState := .loading, customInput := "",
            lastAction := some req }, req)

/-- The JavaScript String.prototype.trim: strip leading and trailing
whitespace. -/
def jsTrim (s : String) : String :=
  String.mk
    (((s.data.dropWhile Char.isWhitespace).reverse.dropWhile Char.isWhitespace).reverse)

/-- handleCustomSubmit, lines 340-345: forward the trimmed customInput to
handleAnswer when it is truthy (non-empty), otherwise do nothing. -/
def handleCustomSubmit (s : AppModel) : AppModel × Option RequestSpec :=
  if jsTrim s.customInput == "" then (s, none)
  else
    let r := handleAnswer s (jsTrim s.customInput)
    (r.1, some r.2)

/-- handleRetry, lines 347-351: set loading, clear errorMsg, re-invoke the
stored lastAction. -/
def handleRetry (s : AppModel) : AppModel × Option RequestSpec :=
  ({ s with appState := .loading, errorMsg := "" }, s.lastAction)

/-- The state update performed when a request of fetchNextStep resolves,
lines 319-337. On a thrown error: classify the message and enter the error
state. On success: if the text is truthy, parse it; a parse exception (the
thrown SyntaxError carries no status or code) enters the error state with
the generic message; a parsed value is stored as data and routes on the
truthiness of its isFinal field; a falsy text changes nothing. -/
def applyFetchOutcome (parseJson : String → Option ParsedStep) (s : AppModel)
    (outcome : Except GenError (Option String)) : AppModel :=
  match outcome with
  | .error e => { s with errorMsg := errorMessageFor e, appState := .error }
  | .ok t =>
    if textTruthy t then
      match parseJson (t.getD "") with
      | some parsed =>
        { s with data := some parsed,
                 appState := if parsed.isFinal == some true then .results else .question }
      | none => { s with errorMsg := errorMessageFor ⟨none, none⟩, appState := .error }
    else s

/-- An oracle on which every attempt fails with a 503 error. -/
def oracle503 : Nat → AttemptResult := fun _ => .failure ⟨some 503, none⟩

/-- An oracle on which every attempt fails with a 429 error. -/
def oracle429 : Nat → AttemptResult := fun _ => .failure ⟨some 429, none⟩

/-- An oracle on which every attempt fails with a non-retryable 400 error. -/
def oracle400 : Nat → AttemptResult := fun _ => .failure ⟨some 400, none⟩

/-- Claim C1, counterexample: on a sequence of 503 failures the client does
wait 1000, 2000 and 4000 before the three retries, but the operation then
fails with the 503 error of the final attempt, which is not classified as
the rate-limit error, contradicting the claim that exhaustion always yields
the rate-limit-classified 429 error. -/
theorem c1_counterexample :
    generateContentWithRetry oracle503 3 0 1000 =
      (Except.error ⟨some 503, none⟩, [1000, 2000, 4000]) ∧
    errorMessageFor ⟨some 503, none⟩ ≠ rateLimitMessage := by
  refine ⟨rfl, ?_⟩
  decide

/-- Claim C1, amended: on a run whose first three outcomes are retryable
(429 or 503 class) failures and whose fourth attempt also fails, the client
makes exactly 3 additional attempts, waiting 1000, 2000 and 4000 before
them, and the operation fails with the error of the final attempt; that
error is rate-limit-classified exactly when it is itself a 429. -/
theorem c1_retry_backoff (oracle : Nat → AttemptResult) (e0 e1 e2 e3 : GenError)
    (h0 : oracle 0 = .failure e0) (h1 : oracle 1 = .failure e1)
    (h2 : oracle 2 = .failure e2) (h3 : oracle 3 = .failure e3)
    (r0 : retryableError e0 = true) (r1 : retryableError e1 = true)
    (r2 : retryableError e2 = true) :
    generateContentWithRetry oracle 3 0 1000 = (Except.error e3, [1000, 2000, 4000]) ∧
    (e3.status = some 429 ∨ e3.code = some 429 → errorMessageFor e3 = rateLimitMessage) := by
  constructor
  · simp [generateContentWithRetry, h0, h1, h2, h3, r0, r1, r2]
  · intro h
    rcases h with h | h <;> simp [errorMessageFor, h]

/-- Claim C1, witness for the amended theorem: the all-429 run makes 4
attempts with waits 1000, 2000, 4000 and fails with the 429 error, whose
classification is the rate-limit message. -/
theorem c1_retry_backoff_witness :
    generateContentWithRetry oracle429 3 0 1000 =
      (Except.error ⟨some 429, none⟩, [1000, 2000, 4000]) ∧
    ((⟨some 429, none⟩ : GenError).status = some 429 ∨
        (⟨some 429, none⟩ : GenError).code = some 429 →
      errorMessageFor ⟨some 429, none⟩ = rateLimitMessage) :=
  c1_retry_backoff oracle429 ⟨some 429, none⟩ ⟨some 429, none⟩ ⟨some 429, none⟩
    ⟨some 429, none⟩ rfl rfl rfl rfl rfl rfl rfl

/-- Claim C8: when the first attempt fails with an error that is neither a
429 (by status or code) nor a 503 (by status), the client performs zero
retries and zero backoff waits and propagates that error immediately,
whatever the remaining retry budget and backoff are. -/
theorem c8_no_retry_nonretryable (oracle : Nat → AttemptResult) (e : GenError)
    (retries backoff : Nat)
    (h : oracle 0 = .failure e) (hr : retryableError e = false) :
    generateContentWithRetry oracle retries 0 backoff = (Except.error e, []) := by
  cases retries <;> simp [generateContentWithRetry, h, hr]

/-- Claim C8, witness: a 400-status failure with the default budget of 3
retries and base delay 1000 propagates at once with no waits. -/
theorem c8_no_retry_nonretryable_witness :
    generateContentWithRetry oracle400 3 0 1000 = (Except.error ⟨some 400, none⟩, []) :=
  c8_no_retry_nonretryable oracle400 ⟨some 400, none⟩ 3 1000 rfl rfl

/-- Claim C2: handleAnswer appends exactly two turns to the transcript, a
model turn carrying the current question text (data?.question, empty when
absent) followed by a user turn carrying the answer, and the request it
issues carries exactly that new transcript; nothing else is added or
removed. -/
theorem c2_answer_appends_two_turns (s : AppModel) (answer : String)
    (h : answer ≠ "") :
    (handleAnswer s answer).1.history =
      s.history ++ [⟨Role.model, questionOrEmpty s.data⟩, ⟨Role.user, answer⟩] ∧
    (handleAnswer s answer).2.history = (handleAnswer s answer).1.history ∧
    (handleAnswer s answer).1.history.length = s.history.length + 2 := by
  refine ⟨rfl, rfl, ?_⟩
  simp [handleAnswer]

/-- Claim C2, witness: answering Friend from the initial state appends the
two turns. -/
theorem c2_answer_appends_two_turns_witness :
    (handleAnswer initialModel "Friend").1.history =
      initialModel.history ++
        [⟨Role.model, questionOrEmpty initialModel.data⟩, ⟨Role.user, "Friend"⟩] ∧
    (handleAnswer initialModel "Friend").2.history =
      (handleAnswer initialModel "Friend").1.history ∧
    (handleAnswer initialModel "Friend").1.history.length =
      initialModel.history.length + 2 :=
  c2_answer_appends_two_turns initialModel "Friend" (by decide)

/-- A final step whose options field is non-empty, which the backend
contract forbids but the client does not reject. -/
def finalWithOptions : ParsedStep :=
  { question := some "Here are some curated ideas.",
    options := some ["Leftover option"],
    isFinal := some true,
    recommendations := some ["Kablosuz Kulaklik"] }

/-- Claim C3, counterexample: a successful response with isFinal true and a
non-empty recommendations list whose options field is non-empty transitions
to results but leaves currentOptions equal to that non-empty options list:
the client stores the response unvalidated and does not clear options. -/
theorem c3_counterexample :
    (applyFetchOutcome (fun _ => some finalWithOptions) (handleStart initialModel).1
        (Except.ok (some "body"))).appState = AppState.results ∧
    currentOptions (applyFetchOutcome (fun _ => some finalWithOptions)
        (handleStart initialModel).1 (Except.ok (some "body"))) ≠ [] := by
  refine ⟨rfl, ?_⟩
  decide

/-- Claim C3, amended: a successful response with isFinal true and a
non-empty recommendations list transitions the controller to results and
stores the response as-is, so currentOptions equals the options field of the
response; it is empty exactly when the backend honored its contract of
sending empty options on a final step, and is not cleared by the client. -/
theorem c3_final_goes_to_results (parseJson : String → Option ParsedStep)
    (s : AppModel) (t : String) (p : ParsedStep)
    (ht : t ≠ "") (hp : parseJson t = some p)
    (hfin : p.isFinal = some true) (hrec : p.recommendations.getD [] ≠ []) :
    (applyFetchOutcome parseJson s (Except.ok (some t))).appState = AppState.results ∧
    (applyFetchOutcome parseJson s (Except.ok (some t))).data = some p ∧
    currentOptions (applyFetchOutcome parseJson s (Except.ok (some t))) =
      p.options.getD [] := by
  simp [applyFetchOutcome, textTruthy, ht, hp, hfin, currentOptions]

/-- A contract-honoring final step: empty options, non-empty
recommendations. -/
def finalStep : ParsedStep :=
  { question := some "Here are some curated ideas.",
    options := some [],
    isFinal := some true,
    recommendations := some ["Kablosuz Kulaklik"] }

/-- Claim C3, witness for the amended theorem: a contract-honoring final
response yields results with empty currentOptions. -/
theorem c3_final_goes_to_results_witness :
    (applyFetchOutcome (fun _ => some finalStep) (handleStart initialModel).1
        (Except.ok (some "body"))).appState = AppState.results ∧
    (applyFetchOutcome (fun _ => some finalStep) (handleStart initialModel).1
        (Except.ok (some "body"))).data = some finalStep ∧
    currentOptions (applyFetchOutcome (fun _ => some finalStep)
        (handleStart initialModel).1 (Except.ok (some "body"))) =
      finalStep.options.getD [] :=
  c3_final_goes_to_results (fun _ => some finalStep) (handleStart initialModel).1
    "body" finalStep (by decide) rfl rfl (by decide)

/-- A parse result with every required field absent, as JSON.parse yields on
the valid JSON body consisting of an empty object. -/
def emptyStep : ParsedStep := ⟨none, none, none, none⟩

/-- Claim C4, counterexample: a response body that is valid JSON but omits
every required field (question, options, isFinal) is not treated as a
failure: the unchecked cast stores it and the falsy isFinal routes the
controller to the question state, not the error state. -/
theorem c4_counterexample :
    (applyFetchOutcome (fun _ => some emptyStep) (handleStart initialModel).1
        (Except.ok (some "body"))).appState = AppState.question ∧
    (applyFetchOutcome (fun _ => some emptyStep) (handleStart initialModel).1
        (Except.ok (some "body"))).appState ≠ AppState.error := by
  refine ⟨rfl, ?_⟩
  decide

/-- Claim C4, amended: a response body that is not valid JSON ends in the
error state with the generic message, identically to a terminal non-429
request failure; but a body that parses as JSON while omitting required
fields is not validated: it is stored as-is and the controller transitions
on the truthiness of its isFinal field. -/
theorem c4_bad_json_generic_failure (parseJson : String → Option ParsedStep)
    (s : AppModel) (t : String) (ht : t ≠ "") (hp : parseJson t = none) :
    applyFetchOutcome parseJson s (Except.ok (some t)) =
      { s with errorMsg := genericMessage, appState := AppState.error } ∧
    applyFetchOutcome parseJson s (Except.ok (some t)) =
      applyFetchOutcome parseJson s (Except.error ⟨some 500, none⟩) ∧
    (∀ p, parseJson t = some p → p.isFinal ≠ some true →
      (applyFetchOutcome parseJson s (Except.ok (some t))).appState =
        AppState.question) := by
  refine ⟨?_, ?_, ?_⟩
  · simp [applyFetchOutcome, textTruthy, ht, hp, errorMessageFor]
  · simp [applyFetchOutcome, textTruthy, ht, hp, errorMessageFor]
  · intro p hps
    rw [hp] at hps
    exact absurd hps (by simp)

/-- Claim C4, witness for the amended theorem: a concrete unparsable body. -/
theorem c4_bad_json_generic_failure_witness :
    applyFetchOutcome (fun _ => none) (handleStart initialModel).1
        (Except.ok (some "not json")) =
      { (handleStart initialModel).1 with
          errorMsg := genericMessage, appState := AppState.error } ∧
    applyFetchOutcome (fun _ => none) (handleStart initialModel).1
        (Except.ok (some "not json")) =
      applyFetchOutcome (fun _ => none) (handleStart initialModel).1
        (Except.error ⟨some 500, none⟩) ∧
    (∀ p, (fun _ => (none : Option ParsedStep)) "not json" = some p →
      p.isFinal ≠ some true →
      (applyFetchOutcome (fun _ => none) (handleStart initialModel).1
          (Except.ok (some "not json"))).appState = AppState.question) :=
  c4_bad_json_generic_failure (fun _ => none) (handleStart initialModel).1
    "not json" (by decide) rfl

/-- The bootstrap step of the scenario in the spec: the first question with
two options, not final. -/
def bootstrapStep : ParsedStep :=
  { question := some "Who are you buying this gift for?",
    options := some ["Friend", "Parent"],
    isFinal := some false,
    recommendations := some [] }

/-- The controller state after starting a session and applying the
bootstrap response of the scenario. -/
def postBootstrap : AppModel :=
  applyFetchOutcome (fun _ => some bootstrapStep) (handleStart initialModel).1
    (Except.ok (some "body"))

/-- Claim C5, counterexample: after the bootstrap response is applied the
controller is in the question state but its transcript is still empty, so
the count of model-authored turns is 0, while the claim requires the
transcript-derived question counter to both equal that count and equal 1. -/
theorem c5_counterexample :
    postBootstrap.appState = AppState.question ∧
    modelTurnCount postBootstrap.history = 0 ∧ (0 : Nat) ≠ 1 := by
  refine ⟨rfl, rfl, ?_⟩
  decide

/-- Claim C5, amended: the question counter embedded in each request prompt
equals the count of model-authored turns of the transcript sent plus one;
the bootstrap request carries counter 1 over the empty transcript, and
after the bootstrap response is applied the controller is in the question
state with the two scenario options, an empty transcript and zero
model-authored turns. -/
theorem c5_question_counter :
    (∀ h : List HistoryItem, promptQuestionIndex h = modelTurnCount h + 1) ∧
    promptQuestionIndex (handleStart initialModel).2.history = 1 ∧
    postBootstrap.appState = AppState.question ∧
    currentOptions postBootstrap = ["Friend", "Parent"] ∧
    postBootstrap.history = [] ∧
    modelTurnCount postBootstrap.history = 0 :=
  ⟨fun _ => rfl, rfl, rfl, rfl, rfl, rfl⟩

/-- The reset state with the pre-reset bootstrap request still pending, and
the state after that stale response arrives. -/
def resetMidRequest : AppModel := handleReset (handleStart initialModel).1

/-- The state reached when the pre-reset request resolves after the reset:
the response is applied to the cleared state. -/
def staleApplied : AppModel :=
  applyFetchOutcome (fun _ => some bootstrapStep) resetMidRequest
    (Except.ok (some "body"))

/-- Claim C6: the code has no session-generation tag, so the response of a
request issued before reset is applied to the freshly reset state rather
than discarded: the state leaves intro for question and the stale step is
stored as data (the transcript itself stays empty only because
fetchNextStep never writes history). -/
theorem c6_stale_response_applied :
    resetMidRequest.appState = AppState.intro ∧
    resetMidRequest.history = [] ∧
    staleApplied.appState = AppState.question ∧
    staleApplied.appState ≠ AppState.intro ∧
    staleApplied.data = some bootstrapStep := by
  refine ⟨rfl, rfl, rfl, ?_, rfl⟩
  decide

/-- Claim C7: submitting when the trimmed customInput is empty (the empty
string or whitespace only) leaves the entire state unchanged and issues no
request. -/
theorem c7_blank_answer_noop (s : AppModel) (h : jsTrim s.customInput = "") :
    handleCustomSubmit s = (s, none) := by
  simp [handleCustomSubmit, h]

/-- Claim C7, witness: a whitespace-only customInput in a question state is
a no-op. -/
theorem c7_blank_answer_noop_witness :
    handleCustomSubmit { postBootstrap with customInput := "   " } =
      ({ postBootstrap with customInput := "   " }, none) :=
  c7_blank_answer_noop { postBootstrap with customInput := "   " } (by decide)

/-- Claim C9: from an error state, handleRetry re-issues exactly the stored
lastAction request and changes nothing but the transient flags (appState to
loading, errorMsg cleared): history, data, customInput, themeIndex and
lastAction are untouched. The stored request is the one captured when it
was originally issued: handleStart and handleAnswer store exactly the
request they issue, and resolving a request never changes lastAction or
history, so the failed request is still the stored one. -/
theorem c9_retry_reissues_same_request (s : AppModel)
    (h : s.appState = AppState.error) :
    (handleRetry s).2 = s.lastAction ∧
    (handleRetry s).1.history = s.history ∧
    (handleRetry s).1.data = s.data ∧
    (handleRetry s).1.customInput = s.customInput ∧
    (handleRetry s).1.themeIndex = s.themeIndex ∧
    (handleRetry s).1.lastAction = s.lastAction ∧
    (handleRetry s).1.appState = AppState.loading ∧
    (handleRetry s).1.errorMsg = "" ∧
    (∀ u : AppModel, (handleStart u).1.lastAction = some (handleStart u).2) ∧
    (∀ (u : AppModel) (a : String),
      (handleAnswer u a).1.lastAction = some (handleAnswer u a).2) ∧
    (∀ (parseJson : String → Option ParsedStep)
        (outcome : Except GenError (Option String)),
      (applyFetchOutcome parseJson s outcome).lastAction = s.lastAction ∧
      (applyFetchOutcome parseJson s outcome).history = s.history) := by
  refine ⟨rfl, rfl, rfl, rfl, rfl, rfl, rfl, rfl, fun _ => rfl, fun _ _ => rfl, ?_⟩
  intro parseJson outcome
  cases outcome with
  | error e => exact ⟨rfl, rfl⟩
  | ok t =>
    by_cases ht : textTruthy t = true
    · simp only [applyFetchOutcome, ht, if_true]
      cases parseJson (t.getD "") with
      | none => exact ⟨rfl, rfl⟩
      | some p => exact ⟨rfl, rfl⟩
    · simp only [applyFetchOutcome, Bool.not_eq_true] at ht ⊢
      rw [ht]
      exact ⟨rfl, rfl⟩

/-- A concrete error state: a started session whose bootstrap request
failed with a 500 error. -/
def errorState : AppModel :=
  applyFetchOutcome (fun _ => none) (handleStart initialModel).1
    (Except.error ⟨some 500, none⟩)

/-- Claim C9, witness: handleRetry on the concrete error state. -/
theorem c9_retry_reissues_same_request_witness :
    (handleRetry errorState).2 = errorState.lastAction ∧
    (handleRetry errorState).1.history = errorState.history ∧
    (handleRetry errorState).1.data = errorState.data ∧
    (handleRetry errorState).1.customInput = errorState.customInput ∧
    (handleRetry errorState).1.themeIndex = errorState.themeIndex ∧
    (handleRetry errorState).1.lastAction = errorState.lastAction ∧
    (handleRetry errorState).1.appState = AppState.loading ∧
    (handleRetry errorState).1.errorMsg = "" ∧
    (∀ u : AppModel, (handleStart u).1.lastAction = some (handleStart u).2) ∧
    (∀ (u : AppModel) (a : String),
      (handleAnswer u a).1.lastAction = some (handleAnswer u a).2) ∧
    (∀ (parseJson : String → Option ParsedStep)
        (outcome : Except GenError (Option String)),
      (applyFetchOutcome parseJson errorState outcome).lastAction =
        errorState.lastAction ∧
      (applyFetchOutcome parseJson errorState outcome).history =
        errorState.history) :=
  c9_retry_reissues_same_request errorState rfl

/-- Claim C10: when the call succeeds but the response text is absent or
empty (falsy), fetchNextStep performs no state transition at all: the
state, still loading, is returned unchanged, so no error state or retry
path is offered. -/
theorem c10_empty_text_no_transition (parseJson : String → Option ParsedStep)
    (s : AppModel) (t : Option String)
    (hs : s.appState = AppState.loading) (ht : textTruthy t = false) :
    applyFetchOutcome parseJson s (Except.ok t) = s ∧
    (applyFetchOutcome parseJson s (Except.ok t)).appState = AppState.loading := by
  have key : applyFetchOutcome parseJson s (Except.ok t) = s := by
    simp only [applyFetchOutcome]
    rw [ht]
    simp
  exact ⟨key, by rw [key]; exact hs⟩

/-- Claim C10, witness: an empty text body on a loading started session. -/
theorem c10_empty_text_no_transition_witness :
    applyFetchOutcome (fun _ => some bootstrapStep) (handleStart initialModel).1
        (Except.ok (some "")) = (handleStart initialModel).1 ∧
    (applyFetchOutcome (fun _ => some bootstrapStep) (handleStart initialModel).1
        (Except.ok (some ""))).appState = AppState.loading :=
  c10_empty_text_no_transition (fun _ => some bootstrapStep)
    (handleStart initialModel).1 (some "") rfl rfl

end Gifty
